import Mathlib

set_option autoImplicit false

/-!
Shallow embedding of the resilient API-client core of the Backstage IDP
Python SDK: `exceptions.py`, `client/http_client.py` (CircuitBreaker,
RateLimiter, HttpClient) and `auth/auth_manager.py` (AuthManager).
Timestamps and durations are rationals; transport outcomes are supplied
as explicit oracles.
-/

/-- An SDK error value: `BackstageSDKError` of `exceptions.py` as data —
message, `code` and optional HTTP `status` (the `details` dict is elided,
it is forwarded unchanged everywhere). -/
structure SDKError where
  message : String
  code : String
  status : Option Nat
deriving DecidableEq, Repr

/-- The keyword arguments that `create_error_from_response` forwards to an
error-class constructor (besides `message` and the elided `details`). -/
structure Kwargs where
  code : Option String := none
  status : Option Nat := none
deriving DecidableEq, Repr

/-- The error classes of `exceptions.py` relevant to the client core.
Every class except the base fixes `code=` (and some also fix `status=`)
in its `__init__` before forwarding `**kwargs` to `BackstageSDKError`. -/
inductive ErrClass
  | base
  | validation
  | authentication
  | authorization
  | notFound
  | rateLimit
  | server
  | network
  | timeoutCls
  | configuration
  | circuitBreaker
deriving DecidableEq, Repr

/-- The `code=` value each subclass binds in its `super().__init__` call
(`none` for the base class, whose default is SDK_ERROR). -/
def fixedCode : ErrClass → Option String
  | .base => none
  | .validation => some "VALIDATION_ERROR"
  | .authentication => some "AUTH_ERROR"
  | .authorization => some "AUTHORIZATION_ERROR"
  | .notFound => some "NOT_FOUND"
  | .rateLimit => some "RATE_LIMIT_ERROR"
  | .server => some "SERVER_ERROR"
  | .network => some "NETWORK_ERROR"
  | .timeoutCls => some "TIMEOUT_ERROR"
  | .configuration => some "CONFIG_ERROR"
  | .circuitBreaker => some "CIRCUIT_BREAKER_ERROR"

/-- The `status=` value each subclass binds in its `super().__init__` call
(`none` when the class leaves `status` to `**kwargs`). -/
def fixedStatus : ErrClass → Option Nat
  | .validation => some 400
  | .authentication => some 401
  | .authorization => some 403
  | .notFound => some 404
  | .rateLimit => some 429
  | .server => some 500
  | _ => none

/-- Calling an error-class constructor with keyword arguments.  A subclass
passes `message, code=<fixed>, status=<fixed>, **kwargs` to the base
`__init__`, so a `code=` or (where the class fixes it) `status=` keyword in
`kwargs` is a duplicate keyword argument and raises Python `TypeError`
before any error object exists; the `.error` branch models that raised
`TypeError`. -/
def constructErr (c : ErrClass) (message : String) (kw : Kwargs) : Except String SDKError :=
  match c with
  | .base => .ok { message, code := kw.code.getD "SDK_ERROR", status := kw.status }
  | _ =>
    if kw.code.isSome then
      .error "TypeError: multiple values for keyword argument code"
    else if kw.status.isSome ∧ (fixedStatus c).isSome then
      .error "TypeError: multiple values for keyword argument status"
    else
      .ok { message
            code := (fixedCode c).getD "SDK_ERROR"
            status := (fixedStatus c).orElse fun _ => kw.status }

/-- Constructing an error with only a positional message, as the raise
sites in `http_client.py` and `auth_manager.py` do; no keyword duplication
can occur, so this is total. -/
def mkErr (c : ErrClass) (message : String) : SDKError :=
  { message, code := (fixedCode c).getD "SDK_ERROR", status := fixedStatus c }

/-- The `error_map` dict of `create_error_from_response`: statuses it maps
to subclasses; every other status falls back to the base class. -/
def errorMap (status : Nat) : ErrClass :=
  if status = 400 then .validation
  else if status = 401 then .authentication
  else if status = 403 then .authorization
  else if status = 404 then .notFound
  else if status = 429 then .rateLimit
  else if status = 500 ∨ status = 502 ∨ status = 503 then .server
  else if status = 504 then .timeoutCls
  else .base

/-- The fields of the error response body that
`create_error_from_response` reads (`message`, `error`; `details` elided). -/
structure RespData where
  message : Option String := none
  error : Option String := none
deriving DecidableEq, Repr

/-- `create_error_from_response(response_data, status)` of `exceptions.py`:
picks the class from `error_map` and calls it with `message=`, `code=`,
`status=` (and `details=`) keywords. -/
def create_error_from_response (rd : RespData) (status : Nat) : Except String SDKError :=
  constructErr (errorMap status) (rd.message.getD "Unknown error")
    { code := some (rd.error.getD "API_ERROR"), status := some status }

/-- `is_retryable_error` of `exceptions.py`, restricted to SDK errors
(the non-SDK branch tests Python builtin exception classes). -/
def is_retryable_error (e : SDKError) : Bool :=
  (e.code == "SERVER_ERROR" || e.code == "TIMEOUT_ERROR" || e.code == "NETWORK_ERROR"
      || e.code == "CIRCUIT_BREAKER_ERROR")
  || (match e.status with | some s => decide (500 ≤ s) | none => false)

/-- The exceptions that can propagate inside the client: SDK errors,
a Python `TypeError` (from duplicate keyword arguments), and the two
`httpx` transport exception families. -/
inductive PyExc
  | sdk (e : SDKError)
  | typeErr (msg : String)
  | httpxTimeout (msg : String)
  | httpxRequestError (msg : String)
deriving DecidableEq, Repr

namespace CircuitBreaker

/-- The `state` string of the `CircuitBreaker` class. -/
inductive Status
  | closed
  | opened
  | halfOpen
deriving DecidableEq, Repr

/-- Instance fields of `CircuitBreaker` in `http_client.py`
(`recovery_timeout` is never read, so it is elided). -/
structure State where
  failure_threshold : Nat
  timeout : ℚ
  failure_count : Nat
  last_failure_time : ℚ
  state : Status
deriving DecidableEq, Repr

/-- `CircuitBreaker.__init__`. -/
def init (failure_threshold : Nat) (timeout : ℚ) : State :=
  { failure_threshold
    timeout
    failure_count := 0
    last_failure_time := 0
    state := .closed }

/-- `CircuitBreaker.record_failure`. -/
def record_failure (s : State) (now : ℚ) : State :=
  let fc := s.failure_count + 1
  { s with
      failure_count := fc
      last_failure_time := now
      state := if s.failure_threshold ≤ fc then .opened else s.state }

/-- `CircuitBreaker.reset`. -/
def reset (s : State) : State :=
  { s with failure_count := 0, state := .closed, last_failure_time := 0 }

/-- What happened to the wrapped function during one `call`. -/
inductive Gate
  | rejected
  | invoked (threw : Bool)
deriving DecidableEq, Repr

/-- `CircuitBreaker.call(func)` as a state transformer; `fnThrows` says
whether the wrapped coroutine raises.  In the open state the breaker moves
to half-open only when strictly more than `timeout` seconds have passed
since the last failure, otherwise it rejects without running `func`. -/
def call (s : State) (now : ℚ) (fnThrows : Bool) : State × Gate :=
  if s.state = .opened ∧ ¬ (s.timeout < now - s.last_failure_time) then
    (s, .rejected)
  else
    let s1 := if s.state = .opened then { s with state := .halfOpen } else s
    if fnThrows then (record_failure s1 now, .invoked true)
    else ((if s1.state = .halfOpen then reset s1 else s1), .invoked false)

/-- `CircuitBreaker.call` carrying the wrapped call's result: a rejection
raises `CircuitBreakerError`, otherwise the function's own result or
exception is passed through unchanged. -/
def callE (s : State) (now : ℚ) (r : Except PyExc (Option Nat)) :
    State × Except PyExc (Option Nat) :=
  match call s now (match r with | .error _ => true | .ok _ => false) with
  | (s2, .rejected) => (s2, .error (.sdk (mkErr .circuitBreaker "Circuit breaker is open")))
  | (s2, .invoked _) => (s2, r)

/-- States reachable from a freshly constructed breaker through `call`
steps and administrative `reset` (`HttpClient.reset_circuit_breaker`). -/
inductive Reachable : State → Prop
  | init (ft : Nat) (tmo : ℚ) : Reachable (init ft tmo)
  | step (s : State) (now : ℚ) (b : Bool) : Reachable s → Reachable (call s now b).1
  | admin (s : State) : Reachable s → Reachable (reset s)

end CircuitBreaker

namespace RateLimiter

/-- Instance fields of `RateLimiter` in `http_client.py` (the asyncio lock
is elided: `acquire` below is the whole critical section). -/
structure State where
  requests_per_second : ℚ
  burst_size : ℚ
  tokens : ℚ
  last_update : ℚ
deriving DecidableEq, Repr

/-- `RateLimiter.__init__`: the bucket starts full. -/
def init (requests_per_second : ℚ) (burst_size : ℚ) : State :=
  { requests_per_second, burst_size, tokens := burst_size, last_update := 0 }

/-- `RateLimiter.acquire` at wall-clock time `now`: lazily refill, then
either consume a token (wait 0) or report the sleep duration and leave the
bucket empty. -/
def acquire (s : State) (now : ℚ) : State × ℚ :=
  let elapsed := now - s.last_update
  let t := min s.burst_size (s.tokens + elapsed * s.requests_per_second)
  if 1 ≤ t then
    ({ s with tokens := t - 1, last_update := now }, 0)
  else
    ({ s with tokens := 0, last_update := now }, (1 - t) / s.requests_per_second)

end RateLimiter

namespace HttpClient

/-- Outcome of one underlying `httpx` request: raised timeout, raised
connection-level error, or a response with a status, an opaque success
payload (its decoded JSON body, or raw text when not JSON) and the error
fields the body would yield on a `>= 400` status (when the body is not
JSON, `_execute_request` substitutes the HTTP_ERROR fallback dict, which
is also representable here). -/
inductive Transport
  | raiseTimeout (msg : String)
  | raiseConnError (msg : String)
  | response (status : Nat) (payload : Nat) (errBody : RespData)
deriving DecidableEq, Repr

/-- Oracle for one `_execute_request` invocation: the first transport
call's outcome, whether `AuthManager.refresh_token()` would succeed if
invoked, and the outcome of the retried transport call after a refresh. -/
structure AttemptSpec where
  first : Transport
  refreshOk : Bool
  second : Transport
deriving DecidableEq, Repr

/-- Observable result of one `_execute_request` invocation: how many
transport calls and how many refresh calls it made, and its returned
value (`none` models the empty dict returned on 204) or raised
exception. -/
structure ExecTrace where
  httpCalls : Nat
  refreshCalls : Nat
  result : Except PyExc (Option Nat)
deriving Repr

/-- The `raise create_error_from_response(...)` site: constructing the
error can itself raise `TypeError` (duplicate keyword arguments), which
then propagates instead of the typed SDK error. -/
def classify (eb : RespData) (status : Nat) : PyExc :=
  match create_error_from_response eb status with
  | .ok e => .sdk e
  | .error m => .typeErr m

/-- `HttpClient._execute_request`: issue the transport call; on a 401
with an auth manager, refresh once and — only when the refresh did not
raise — retry the transport call once, a raised retried call being
swallowed by the inner handler (the original 401 response is then used);
classify a `>= 400` status via `create_error_from_response`; 204 yields
the empty dict; raised `httpx` timeouts and request errors are converted
to the SDK `TimeoutError` and `NetworkError`. -/
def execute_request (hasAuth : Bool) (a : AttemptSpec) : ExecTrace :=
  match a.first with
  | .raiseTimeout m => ⟨1, 0, .error (.sdk (mkErr .timeoutCls ("Request timeout: " ++ m)))⟩
  | .raiseConnError m => ⟨1, 0, .error (.sdk (mkErr .network ("Network error: " ++ m)))⟩
  | .response st p eb =>
    let (calls, refreshes, st2, p2, eb2) :=
      if st = 401 ∧ hasAuth = true then
        if a.refreshOk then
          match a.second with
          | .response st2 p2 eb2 => (2, 1, st2, p2, eb2)
          | _ => (2, 1, st, p, eb)
        else (1, 1, st, p, eb)
      else (1, 0, st, p, eb)
    if 400 ≤ st2 then ⟨calls, refreshes, .error (classify eb2 st2)⟩
    else if st2 = 204 then ⟨calls, refreshes, .ok none⟩
    else ⟨calls, refreshes, .ok (some p2)⟩

/-- The tenacity predicate `retry_if_exception_type((httpx.RequestError,
httpx.TimeoutException))` configured in `HttpClient.request`. -/
def tenacityRetryPred : PyExc → Bool
  | .httpxTimeout _ => true
  | .httpxRequestError _ => true
  | _ => false

/-- `HttpClient._transform_error`. -/
def transform_error : PyExc → SDKError
  | .sdk e => e
  | .httpxTimeout m => mkErr .timeoutCls ("Request timeout: " ++ m)
  | .httpxRequestError m => mkErr .network ("Network error: " ++ m)
  | .typeErr m => { message := "Unexpected error: " ++ m, code := "SDK_ERROR", status := none }

/-- One entry of the attempt oracle: the wall-clock time at which the
attempt runs and its transport behaviour. -/
structure TimedAttempt where
  now : ℚ
  spec : AttemptSpec
deriving Repr

/-- The tenacity-decorated `_make_request` loop of `HttpClient.request`:
run the circuit-breaker-wrapped `_execute_request`; with `reraise=True`
and `stop_after_attempt`, a failed attempt is repeated only while budget
remains and the raised exception satisfies `tenacityRetryPred`, otherwise
the exception is re-raised.  Returns the breaker state, the number of
attempts made, and the result. -/
def requestLoop (hasAuth : Bool) (oracle : Nat → TimedAttempt) :
    Nat → Nat → CircuitBreaker.State → CircuitBreaker.State × Nat × Except PyExc (Option Nat)
  | 0, idx, cb => (cb, idx, .error (.sdk (mkErr .base "no attempt budget")))
  | fuel + 1, idx, cb =>
    let ta := oracle idx
    let (cb2, r) := CircuitBreaker.callE cb ta.now (execute_request hasAuth ta.spec).result
    match r with
    | .ok v => (cb2, idx + 1, .ok v)
    | .error e =>
      if fuel ≠ 0 ∧ tenacityRetryPred e = true then
        requestLoop hasAuth oracle fuel (idx + 1) cb2
      else (cb2, idx + 1, .error e)

/-- `HttpClient.request` (retry and error-transformation layers; header
assembly and rate limiting are orthogonal to the executed attempts):
`stop_after_attempt(self.config.retries or 3)` — a falsy `retries`
(absent or 0) means 3 — and any exception escaping the loop is passed
through `_transform_error`. -/
def request (retries : Option Nat) (hasAuth : Bool) (oracle : Nat → TimedAttempt)
    (cb : CircuitBreaker.State) :
    CircuitBreaker.State × Nat × Except SDKError (Option Nat) :=
  let eff := match retries with
    | none => 3
    | some 0 => 3
    | some (n + 1) => n + 1
  let (cb2, n, r) := requestLoop hasAuth oracle eff 0 cb
  (cb2, n, match r with | .ok v => .ok v | .error e => .error (transform_error e))

end HttpClient

/-- `TokenInfo` of `auth_manager.py` (`expires_at` as a rational
timestamp). -/
structure TokenInfo where
  access_token : String
  refresh_token : Option String := none
  expires_at : Option ℚ := none
  token_type : String := "bearer"
deriving DecidableEq, Repr

namespace AuthManager

/-- The fields of `AuthConfig` that `AuthManager` reads. -/
structure Config where
  base_url : String := ""
  auto_refresh : Bool := true
deriving DecidableEq, Repr

/-- Mutable state of an `AuthManager`: the stored credential and the
pending scheduled-refresh task, modelled by the delay (in seconds from
the moment it was armed) after which it fires; `none` means no pending
task. -/
structure State where
  config : Config
  token_info : Option TokenInfo := none
  refresh_timer : Option ℚ := none
deriving DecidableEq, Repr

/-- `AuthManager.get_auth_header`. -/
def get_auth_header (s : State) : Option String :=
  match s.token_info with
  | none => none
  | some ti =>
    if ti.token_type = "api_key" then some ti.access_token
    else some ("Bearer " ++ ti.access_token)

/-- `AuthManager._is_token_valid`: API keys never expire; a bearer token
with an expiry is valid only up to one minute before it. -/
def is_token_valid (s : State) (now : ℚ) : Bool :=
  match s.token_info with
  | none => false
  | some ti =>
    if ti.token_type = "api_key" then true
    else
      match ti.expires_at with
      | some e => decide (now < e - 60)
      | none => true

/-- `AuthManager._schedule_refresh`: the delay is `expires_at` minus five
minutes minus `now`; a task is created only when that delay is strictly
positive — otherwise nothing is scheduled at all. -/
def schedule_refresh (ti : TokenInfo) (now : ℚ) : Option ℚ :=
  match ti.expires_at with
  | none => none
  | some e =>
    let delay := (e - 300) - now
    if 0 < delay then some delay else none

/-- `AuthManager.set_tokens`: store the credential, cancel any pending
refresh task, and schedule a new one when auto-refresh is on and the
credential has both a refresh token and an expiry. -/
def set_tokens (s : State) (ti : TokenInfo) (now : ℚ) : State :=
  { s with
      token_info := some ti
      refresh_timer :=
        if s.config.auto_refresh = true ∧ ti.refresh_token.isSome = true
            ∧ ti.expires_at.isSome = true then
          schedule_refresh ti now
        else none }

/-- `AuthManager.clear_tokens`. -/
def clear_tokens (s : State) : State :=
  { s with token_info := none, refresh_timer := none }

/-- Body of a refresh response, with timestamps already decoded
(`expires_at` stands for the parsed ISO-8601 field). -/
structure RefreshBody where
  access_token : Option String := none
  refresh_token : Option String := none
  expires_in : Option ℚ := none
  expires_at : Option ℚ := none
deriving DecidableEq, Repr

/-- Outcome of the transport call `POST base_url/auth/refresh`. -/
inductive RefreshTransport
  | requestError (msg : String)
  | response (status : Nat) (body : RefreshBody)
deriving DecidableEq, Repr

/-- `AuthManager.refresh_token`, parameterised by `jwtExp`, the
best-effort `_extract_expiry_from_jwt` decoding of the external `jwt`
library.  Without a stored refresh token it raises `AuthenticationError`;
a transport error or a status other than 200 (or a body without
`access_token`) raises `AuthenticationError` and leaves the state
untouched; on success the credential is replaced via `set_tokens`.
(The non-200 raise site passes `status=` to `AuthenticationError`, a
duplicate keyword argument whose `TypeError` is caught by the generic
handler, which raises a plain `AuthenticationError` — so the surfaced
class is `AuthenticationError` either way.) -/
def refresh_token (jwtExp : String → Option ℚ) (s : State) (now : ℚ)
    (tr : RefreshTransport) : State × Except SDKError TokenInfo :=
  match s.token_info with
  | none => (s, .error (mkErr .authentication "No refresh token available"))
  | some ti =>
    match ti.refresh_token with
    | none => (s, .error (mkErr .authentication "No refresh token available"))
    | some rt =>
      match tr with
      | .requestError m =>
        (s, .error (mkErr .authentication ("Network error during token refresh: " ++ m)))
      | .response status body =>
        if status ≠ 200 then
          (s, .error (mkErr .authentication "Token refresh failed"))
        else
          match body.access_token with
          | none => (s, .error (mkErr .authentication "Token refresh failed"))
          | some tok =>
            let nti : TokenInfo :=
              { access_token := tok
                refresh_token := body.refresh_token.orElse fun _ => some rt
                token_type := "bearer"
                expires_at :=
                  match body.expires_in with
                  | some d => some (now + d)
                  | none =>
                    match body.expires_at with
                    | some e => some e
                    | none => jwtExp tok }
            (set_tokens s nti now, .ok nti)

/-- `AuthManager.ensure_valid_token`: no credential raises; a valid
credential's access token is returned; an invalid one is refreshed only
when a refresh token is present AND `config.auto_refresh` is true;
otherwise it raises. -/
def ensure_valid_token (jwtExp : String → Option ℚ) (s : State) (now : ℚ)
    (tr : RefreshTransport) : State × Except SDKError String :=
  match s.token_info with
  | none => (s, .error (mkErr .authentication "No authentication tokens available"))
  | some ti =>
    if is_token_valid s now then (s, .ok ti.access_token)
    else if ti.refresh_token.isSome = true ∧ s.config.auto_refresh = true then
      match refresh_token jwtExp s now tr with
      | (s2, .ok nti) => (s2, .ok nti.access_token)
      | (s2, .error e) => (s2, .error e)
    else (s, .error (mkErr .authentication "Token expired and cannot be refreshed"))

end AuthManager

/-! Concrete scenarios used to settle the claims. -/

/-- Attempt oracle whose first two attempts fail with a connection-level
transport error and whose third attempt returns 200 with payload 7. -/
def netFailOracle : Nat → HttpClient.TimedAttempt := fun n =>
  { now := n
    spec :=
      { first := if n < 2 then .raiseConnError "boom" else .response 200 7 {}
        refreshOk := false
        second := .response 200 7 {} } }

/-- A 401 response whose token refresh fails. -/
def attempt401RefreshFails : HttpClient.AttemptSpec :=
  { first := .response 401 0 {}, refreshOk := false, second := .response 200 1 {} }

/-- A 401 response whose token refresh succeeds; the retried call returns 200. -/
def attempt401RefreshOk : HttpClient.AttemptSpec :=
  { first := .response 401 0 {}, refreshOk := true, second := .response 200 1 {} }

/-- Oracle that always produces the 401-with-failing-refresh attempt. -/
def oracle401 : Nat → HttpClient.TimedAttempt := fun n =>
  { now := n, spec := attempt401RefreshFails }

/-- An open breaker whose last failure was at time 0 (threshold 5, timeout 60). -/
def s3open : CircuitBreaker.State :=
  { failure_threshold := 5, timeout := 60, failure_count := 5,
    last_failure_time := 0, state := .opened }

/-- A bearer credential that expired at time 0 but still has a refresh token. -/
def tiExpired : TokenInfo :=
  { access_token := "a", refresh_token := some "r", expires_at := some 0 }

/-- A bearer credential expiring at time 300 (exactly five minutes). -/
def ti300 : TokenInfo :=
  { access_token := "a", refresh_token := some "r", expires_at := some 300 }

/-- A bearer credential expiring at time 3600 (issued with expires_in = 3600 at t0 = 0). -/
def ti3600 : TokenInfo :=
  { access_token := "a", refresh_token := some "r", expires_at := some 3600 }

/-- Auth manager holding the expired credential, auto-refresh enabled (the default). -/
def sBearer : AuthManager.State :=
  { config := {}, token_info := some tiExpired }

/-- Auth manager holding the expired credential, auto-refresh disabled. -/
def sNoAuto : AuthManager.State :=
  { config := { base_url := "", auto_refresh := false }, token_info := some tiExpired }

/-- A successful refresh exchange: 200 with a new access token and no
refresh_token / expiry fields in the body. -/
def refreshOkTr : AuthManager.RefreshTransport :=
  .response 200 { access_token := some "n" }

/-- The credential `refreshOkTr` produces from `sBearer` (the previous
refresh token is kept; the new token is not a decodable JWT). -/
def nti6 : TokenInfo :=
  { access_token := "n", refresh_token := some "r", expires_at := none }

/-- State of `sBearer` after that refresh stored the new credential at time 100. -/
def sAfter : AuthManager.State := AuthManager.set_tokens sBearer nti6 100

/-! Theorems. -/

/-- Helper: no exception `_execute_request` can raise satisfies the
tenacity retry predicate configured in `request` — `_execute_request`
converts the `httpx` exception types the predicate tests for into SDK
errors before they can reach the retry decorator. -/
theorem execute_request_never_tenacity_retryable (hasAuth : Bool)
    (a : HttpClient.AttemptSpec) (e : PyExc)
    (h : (HttpClient.execute_request hasAuth a).result = .error e) :
    HttpClient.tenacityRetryPred e = false := by
  have hc : ∀ eb st, HttpClient.tenacityRetryPred (HttpClient.classify eb st) = false := by
    intro eb st
    unfold HttpClient.classify
    cases create_error_from_response eb st <;> rfl
  rcases a with ⟨first, refreshOk, second⟩
  cases first with
  | raiseTimeout m => simp [HttpClient.execute_request] at h; subst h; rfl
  | raiseConnError m => simp [HttpClient.execute_request] at h; subst h; rfl
  | response st p eb =>
    simp only [HttpClient.execute_request] at h
    repeat' split at h
    all_goals try simp at h
    all_goals rw [← h]; exact hc _ _

/-- Claim C1: the spec says a retryable failure (network, timeout, 5xx,
circuit-breaker-open) is retried up to `max_retries` times, so two
network failures followed by a success yield the success after exactly 3
attempts.  The code never retries: with two connection failures queued,
`request` makes exactly one attempt and raises the `NetworkError` from
the first attempt. -/
theorem C1_network_failures_not_retried :
    HttpClient.request (some 3) false netFailOracle (CircuitBreaker.init 5 60)
      = ({ failure_threshold := 5, timeout := 60, failure_count := 1,
           last_failure_time := 0, state := .closed }, 1,
         .error (mkErr .network "Network error: boom")) := by
  rfl

/-- Claim C2: the spec's classifier maps each status to a typed error
(400 to Validation, ..., every 5xx to Server).  In the code,
`create_error_from_response` passes `code=` and `status=` keywords to
error classes whose constructors already bind them, so for every mapped
status (400 here, likewise 401/403/404/429/500/502/503/504) the
construction raises `TypeError` and the caller receives a generic
SDK_ERROR instead of the typed error; moreover 501 (a 5xx) maps to the
base class, not Server, and the map routes 504 to TimeoutError.  The
transport part of the claim does hold: a raised timeout becomes
TIMEOUT_ERROR and a connection failure NETWORK_ERROR. -/
theorem C2_status_mapping_raises_typeerror :
    create_error_from_response {} 400
      = .error "TypeError: multiple values for keyword argument code"
  ∧ create_error_from_response {} 504
      = .error "TypeError: multiple values for keyword argument code"
  ∧ create_error_from_response {} 501
      = .ok { message := "Unknown error", code := "API_ERROR", status := some 501 }
  ∧ HttpClient.transform_error (HttpClient.classify {} 400)
      = { message := "Unexpected error: TypeError: multiple values for keyword argument code"
          code := "SDK_ERROR"
          status := none }
  ∧ (HttpClient.execute_request false
      { first := .raiseTimeout "t", refreshOk := false, second := .raiseTimeout "t" }).result
      = .error (.sdk (mkErr .timeoutCls "Request timeout: t"))
  ∧ (HttpClient.execute_request false
      { first := .raiseConnError "c", refreshOk := false, second := .raiseConnError "c" }).result
      = .error (.sdk (mkErr .network "Network error: c")) :=
  ⟨rfl, rfl, rfl, rfl, rfl, rfl⟩

/-- Claim C5: on a 401 the code performs exactly one refresh call, and
when the refresh succeeds exactly one retried HTTP call; but when the
refresh fails there is no retried HTTP call, and classifying the original
401 response raises `TypeError` (duplicate keyword arguments in
`AuthenticationError`), so the caller receives a generic SDK_ERROR
"Unexpected error" — not the Authentication error the claim requires.
No further retry attempts occur (1 attempt total). -/
theorem C5_401_refresh_failure_surfaces_generic_error :
    (HttpClient.execute_request true attempt401RefreshFails).refreshCalls = 1
  ∧ (HttpClient.execute_request true attempt401RefreshFails).httpCalls = 1
  ∧ (HttpClient.execute_request true attempt401RefreshOk).refreshCalls = 1
  ∧ (HttpClient.execute_request true attempt401RefreshOk).httpCalls = 2
  ∧ (HttpClient.execute_request true attempt401RefreshOk).result = .ok (some 1)
  ∧ (HttpClient.request (some 3) true oracle401 (CircuitBreaker.init 5 60)).2.1 = 1
  ∧ (HttpClient.request (some 3) true oracle401 (CircuitBreaker.init 5 60)).2.2
      = .error { message := "Unexpected error: TypeError: multiple values for keyword argument code"
                 code := "SDK_ERROR"
                 status := none } :=
  ⟨rfl, rfl, rfl, rfl, rfl, rfl, rfl⟩

/-- Claim C3 counterexample: when exactly `timeout` seconds have elapsed
since the last failure the claim says the open breaker transitions to
half-open and invokes `fn`; the code still rejects without invoking `fn`
(it requires strictly more than `timeout` seconds). -/
theorem C3_counterexample_boundary :
    CircuitBreaker.call s3open 60 false = (s3open, .rejected)
  ∧ (60 : ℚ) - s3open.last_failure_time = s3open.timeout := by
  have hc : s3open.state = CircuitBreaker.Status.opened
      ∧ ¬ (s3open.timeout < (60 : ℚ) - s3open.last_failure_time) := by
    refine ⟨rfl, ?_⟩
    norm_num [s3open]
  exact ⟨by unfold CircuitBreaker.call; rw [if_pos hc], by norm_num [s3open]⟩

/-- Claim C3 (amended: the open breaker rejects while at most — not
"fewer than" — `timeout` seconds have elapsed, and transitions to
half-open and invokes `fn` only when strictly more have): rejection
leaves the whole state (in particular `failure_count` and
`last_failure_time`) unchanged, does not invoke `fn`, and raises
`CircuitBreakerError`; past the timeout the call behaves exactly as a
call on the half-open breaker and `fn` is invoked. -/
theorem C3_open_breaker_gate (s : CircuitBreaker.State) (now : ℚ) (b : Bool)
    (h : s.state = .opened) :
    (now - s.last_failure_time ≤ s.timeout →
       CircuitBreaker.call s now b = (s, .rejected)
     ∧ ∀ r, CircuitBreaker.callE s now r
         = (s, .error (.sdk (mkErr .circuitBreaker "Circuit breaker is open"))))
  ∧ (s.timeout < now - s.last_failure_time →
       CircuitBreaker.call s now b
         = CircuitBreaker.call { s with state := .halfOpen } now b
     ∧ (CircuitBreaker.call s now b).2 = .invoked b) := by
  constructor
  · intro hle
    have hgate : CircuitBreaker.call s now b = (s, .rejected) := by
      unfold CircuitBreaker.call
      rw [if_pos ⟨h, not_lt.mpr hle⟩]
    refine ⟨hgate, fun r => ?_⟩
    unfold CircuitBreaker.callE
    have hgate2 : ∀ b2, CircuitBreaker.call s now b2 = (s, .rejected) := by
      intro b2
      unfold CircuitBreaker.call
      rw [if_pos ⟨h, not_lt.mpr hle⟩]
    rw [hgate2]
  · intro hlt
    have hcond : ¬ (s.state = .opened ∧ ¬ (s.timeout < now - s.last_failure_time)) := by
      intro hc
      exact hc.2 hlt
    have hcond2 : ¬ (({ s with state := CircuitBreaker.Status.halfOpen } :
        CircuitBreaker.State).state = .opened
          ∧ ¬ (s.timeout < now - s.last_failure_time)) := by
      intro hc
      simp at hc
    constructor
    · unfold CircuitBreaker.call
      rw [if_neg hcond, if_neg hcond2]
      simp [h]
    · unfold CircuitBreaker.call
      rw [if_neg hcond]
      simp [h]
      cases b <;> simp

/-- Witness for C3: a concrete open breaker 30 seconds (half the timeout)
after its last failure rejects the call unchanged. -/
theorem C3_open_breaker_gate_witness :
    CircuitBreaker.call s3open 30 true = (s3open, .rejected) := by
  have h := C3_open_breaker_gate s3open 30 true rfl
  exact (h.1 (by norm_num [s3open])).1

/-- Helper: the closed form of `call` when the open-state gate rejects. -/
theorem call_rejected_eq (s : CircuitBreaker.State) (now : ℚ) (b : Bool)
    (h : s.state = .opened ∧ ¬ (s.timeout < now - s.last_failure_time)) :
    CircuitBreaker.call s now b = (s, .rejected) := by
  unfold CircuitBreaker.call
  rw [if_pos h]

/-- Helper: an admitted call on an open breaker (timeout strictly passed)
whose function throws records the failure against the half-open state. -/
theorem call_throw_opened_eq (s : CircuitBreaker.State) (now : ℚ)
    (h1 : s.state = .opened) (h2 : s.timeout < now - s.last_failure_time) :
    CircuitBreaker.call s now true
      = (CircuitBreaker.record_failure { s with state := .halfOpen } now, .invoked true) := by
  unfold CircuitBreaker.call
  rw [if_neg (fun hc => hc.2 h2)]
  simp [h1]

/-- Helper: a call on a non-open breaker whose function throws records
the failure against the unchanged state. -/
theorem call_throw_not_opened_eq (s : CircuitBreaker.State) (now : ℚ)
    (h1 : s.state ≠ .opened) :
    CircuitBreaker.call s now true
      = (CircuitBreaker.record_failure s now, .invoked true) := by
  unfold CircuitBreaker.call
  rw [if_neg (fun hc => h1 hc.1)]
  simp [h1]

/-- Helper: an admitted call on an open breaker (timeout strictly passed)
whose function succeeds resets the breaker. -/
theorem call_success_opened_eq (s : CircuitBreaker.State) (now : ℚ)
    (h1 : s.state = .opened) (h2 : s.timeout < now - s.last_failure_time) :
    CircuitBreaker.call s now false
      = (CircuitBreaker.reset { s with state := .halfOpen }, .invoked false) := by
  unfold CircuitBreaker.call
  rw [if_neg (fun hc => hc.2 h2)]
  simp [h1]

/-- Helper: a call on a half-open breaker whose function succeeds resets
the breaker. -/
theorem call_success_halfOpen_eq (s : CircuitBreaker.State) (now : ℚ)
    (h1 : s.state = .halfOpen) :
    CircuitBreaker.call s now false = (CircuitBreaker.reset s, .invoked false) := by
  unfold CircuitBreaker.call
  rw [if_neg (fun hc => by rw [h1] at hc; exact absurd hc.1 (by simp))]
  simp [h1]

/-- Helper: a call on a closed breaker whose function succeeds leaves the
state unchanged. -/
theorem call_success_closed_eq (s : CircuitBreaker.State) (now : ℚ)
    (h1 : s.state = .closed) :
    CircuitBreaker.call s now false = (s, .invoked false) := by
  unfold CircuitBreaker.call
  rw [if_neg (fun hc => by rw [h1] at hc; exact absurd hc.1 (by simp))]
  simp [h1]

/-- Helper: in every reachable breaker state, a non-closed status implies
the failure count has reached the threshold (the count is not cleared on
the open-to-half-open transition, so half-open states inherit it). -/
theorem reachable_threshold_invariant (s : CircuitBreaker.State)
    (h : CircuitBreaker.Reachable s) :
    s.state ≠ .closed → s.failure_threshold ≤ s.failure_count := by
  induction h with
  | init ft tmo => intro hc; exact absurd rfl hc
  | admin s _ _ => intro hc; exact absurd rfl hc
  | step s now b _ ih =>
    by_cases hrej : s.state = CircuitBreaker.Status.opened
        ∧ ¬ (s.timeout < now - s.last_failure_time)
    · rw [call_rejected_eq s now b hrej]
      exact ih
    · cases b with
      | true =>
        by_cases hop : s.state = CircuitBreaker.Status.opened
        · have h2 : s.timeout < now - s.last_failure_time := by
            by_contra hh
            exact hrej ⟨hop, hh⟩
          rw [call_throw_opened_eq s now hop h2]
          intro _
          have hle := ih (by rw [hop]; simp)
          simp [CircuitBreaker.record_failure]
          omega
        · rw [call_throw_not_opened_eq s now hop]
          intro hc
          simp [CircuitBreaker.record_failure] at hc ⊢
          by_cases hth : s.failure_threshold ≤ s.failure_count + 1
          · omega
          · rw [if_neg hth] at hc
            have hle := ih hc
            omega
      | false =>
        by_cases hop : s.state = CircuitBreaker.Status.opened
        · have h2 : s.timeout < now - s.last_failure_time := by
            by_contra hh
            exact hrej ⟨hop, hh⟩
          rw [call_success_opened_eq s now hop h2]
          intro hc
          simp [CircuitBreaker.reset] at hc
        · by_cases hho : s.state = CircuitBreaker.Status.halfOpen
          · rw [call_success_halfOpen_eq s now hho]
            intro hc
            simp [CircuitBreaker.reset] at hc
          · have hcl : s.state = CircuitBreaker.Status.closed := by
              cases hst : s.state <;> simp_all
            rw [call_success_closed_eq s now hcl]
            intro hc
            exact absurd hcl hc

/-- Helper: `record_failure` increments the count. -/
theorem record_failure_count_eq (s : CircuitBreaker.State) (now : ℚ) :
    (CircuitBreaker.record_failure s now).failure_count = s.failure_count + 1 := rfl

/-- Helper: `record_failure` stamps the failure time. -/
theorem record_failure_time_eq (s : CircuitBreaker.State) (now : ℚ) :
    (CircuitBreaker.record_failure s now).last_failure_time = now := rfl

/-- Helper: the post-state status of `record_failure`. -/
theorem record_failure_state_eq (s : CircuitBreaker.State) (now : ℚ) :
    (CircuitBreaker.record_failure s now).state
      = if s.failure_threshold ≤ s.failure_count + 1 then .opened else s.state := rfl

/-- Helper: when the open-state gate does not reject, the wrapped
function is invoked. -/
theorem call_not_rejected (s : CircuitBreaker.State) (now : ℚ) (b : Bool)
    (h : ¬ (s.state = .opened ∧ ¬ (s.timeout < now - s.last_failure_time))) :
    (CircuitBreaker.call s now b).2 = .invoked b := by
  unfold CircuitBreaker.call
  rw [if_neg h]
  cases b <;> simp

/-- Helper: when the gate admits the call, the wrapped call's exception
is re-raised unchanged by `callE`. -/
theorem callE_passes_error (s : CircuitBreaker.State) (now : ℚ) (e : PyExc)
    (h : ¬ (s.state = .opened ∧ ¬ (s.timeout < now - s.last_failure_time))) :
    (CircuitBreaker.callE s now (.error e)).2 = .error e := by
  have hg := call_not_rejected s now true h
  unfold CircuitBreaker.callE
  rw [show (match (Except.error e : Except PyExc (Option Nat)) with
        | .error _ => true | .ok _ => false) = true from rfl]
  rcases hcall : CircuitBreaker.call s now true with ⟨s2, g⟩
  rw [hcall] at hg
  simp only at hg
  subst hg
  rfl

/-- Claim C4 (confirmed): the breaker starts closed; after any admitted
call in which the function throws, the failure count is incremented and
the failure time stamped, and the status is open whenever the new count
has reached the threshold; in every reachable non-closed state a
successful admitted call closes the breaker with count 0, a throwing
admitted call leaves it open, and the function's exception is re-raised
unchanged. -/
theorem C4_circuit_state_machine (s : CircuitBreaker.State) (now : ℚ)
    (hr : CircuitBreaker.Reachable s) :
    (∀ ft tmo, (CircuitBreaker.init ft tmo).state = .closed)
  ∧ ((CircuitBreaker.call s now true).2 = .invoked true →
        (CircuitBreaker.call s now true).1.failure_count = s.failure_count + 1
      ∧ (CircuitBreaker.call s now true).1.last_failure_time = now
      ∧ (s.failure_threshold ≤ s.failure_count + 1 →
           (CircuitBreaker.call s now true).1.state = .opened))
  ∧ (s.state ≠ .closed → (CircuitBreaker.call s now false).2 = .invoked false →
        (CircuitBreaker.call s now false).1.state = .closed
      ∧ (CircuitBreaker.call s now false).1.failure_count = 0)
  ∧ (s.state ≠ .closed → (CircuitBreaker.call s now true).2 = .invoked true →
        (CircuitBreaker.call s now true).1.state = .opened)
  ∧ (∀ e, (CircuitBreaker.call s now true).2 = .invoked true →
        (CircuitBreaker.callE s now (.error e)).2 = .error e) := by
  by_cases hrej : s.state = CircuitBreaker.Status.opened
      ∧ ¬ (s.timeout < now - s.last_failure_time)
  · have hT := call_rejected_eq s now true hrej
    have hF := call_rejected_eq s now false hrej
    refine ⟨fun ft tmo => rfl, ?_, ?_, ?_, ?_⟩
    · rw [hT]; intro h; simp at h
    · rw [hF]; intro _ h; simp at h
    · rw [hT]; intro _ h; simp at h
    · intro e h; rw [hT] at h; simp at h
  · by_cases hop : s.state = CircuitBreaker.Status.opened
    · have h2 : s.timeout < now - s.last_failure_time := by
        by_contra hh
        exact hrej ⟨hop, hh⟩
      have hT := call_throw_opened_eq s now hop h2
      have hF := call_success_opened_eq s now hop h2
      have hle := reachable_threshold_invariant s hr (by rw [hop]; simp)
      refine ⟨fun ft tmo => rfl, ?_, ?_, ?_, ?_⟩
      · rw [hT]
        intro _
        refine ⟨rfl, rfl, ?_⟩
        intro hth
        rw [record_failure_state_eq]
        simp only
        rw [if_pos (by simpa using hth)]
      · rw [hF]
        intro _ _
        exact ⟨rfl, rfl⟩
      · intro _ _
        rw [hT]
        simp only
        rw [record_failure_state_eq]
        rw [if_pos (by simp; omega)]
      · intro e _
        exact callE_passes_error s now e hrej
    · by_cases hho : s.state = CircuitBreaker.Status.halfOpen
      · have hT := call_throw_not_opened_eq s now hop
        have hF := call_success_halfOpen_eq s now hho
        have hle := reachable_threshold_invariant s hr (by rw [hho]; simp)
        refine ⟨fun ft tmo => rfl, ?_, ?_, ?_, ?_⟩
        · rw [hT]
          intro _
          refine ⟨rfl, rfl, ?_⟩
          intro hth
          simp only
          rw [record_failure_state_eq, if_pos hth]
        · rw [hF]
          intro _ _
          exact ⟨rfl, rfl⟩
        · intro _ _
          rw [hT]
          simp only
          rw [record_failure_state_eq, if_pos (by omega)]
        · intro e _
          exact callE_passes_error s now e hrej
      · have hcl : s.state = CircuitBreaker.Status.closed := by
          cases hst : s.state <;> simp_all
        have hT := call_throw_not_opened_eq s now hop
        refine ⟨fun ft tmo => rfl, ?_, ?_, ?_, ?_⟩
        · rw [hT]
          intro _
          refine ⟨rfl, rfl, ?_⟩
          intro hth
          simp only
          rw [record_failure_state_eq, if_pos hth]
        · intro hc
          exact absurd hcl hc
        · intro hc
          exact absurd hcl hc
        · intro e _
          exact callE_passes_error s now e hrej

/-- Witness for C4: one failing call on a fresh breaker with threshold 1
increments the count to 1, stamps the failure time, and opens the
breaker. -/
theorem C4_circuit_state_machine_witness :
    (CircuitBreaker.call (CircuitBreaker.init 1 60) 5 true).1.failure_count = 0 + 1
  ∧ (CircuitBreaker.call (CircuitBreaker.init 1 60) 5 true).1.last_failure_time = 5
  ∧ (CircuitBreaker.call (CircuitBreaker.init 1 60) 5 true).1.state = .opened := by
  have h := (C4_circuit_state_machine (CircuitBreaker.init 1 60) 5
      (CircuitBreaker.Reachable.init 1 60)).2.1
  have hg : (CircuitBreaker.call (CircuitBreaker.init 1 60) 5 true).2
      = CircuitBreaker.Gate.invoked true := by
    rw [call_throw_not_opened_eq _ _ (by simp [CircuitBreaker.init])]
  have h2 := h hg
  exact ⟨h2.1, h2.2.1, h2.2.2 (by decide)⟩

/-- Claim C6 counterexample: the stored bearer credential is expired and
carries a refresh token, yet because `config.auto_refresh` is false the
code raises `AuthenticationError` instead of performing the refresh
exchange the claim requires whenever a refresh token is present. -/
theorem C6_counterexample_auto_refresh_off :
    (AuthManager.ensure_valid_token (fun _ => none) sNoAuto 100 refreshOkTr).2
      = .error (mkErr .authentication "Token expired and cannot be refreshed")
  ∧ (AuthManager.ensure_valid_token (fun _ => none) sNoAuto 100 refreshOkTr).1 = sNoAuto
  ∧ tiExpired.refresh_token = some "r" := by
  have hb : ¬ ("bearer" : String) = "api_key" := by decide
  have hval : AuthManager.is_token_valid sNoAuto 100 = false := by
    simp [AuthManager.is_token_valid, sNoAuto, tiExpired, hb]
    norm_num
  have hti : sNoAuto.token_info = some tiExpired := rfl
  have hau : sNoAuto.config.auto_refresh = false := rfl
  refine ⟨?_, ?_, rfl⟩ <;>
    simp [AuthManager.ensure_valid_token, hti, hval, hau]

/-- Claim C6 (amended: an invalid credential is refreshed only when a
refresh token is present AND `config.auto_refresh` is enabled; with a
refresh token but auto-refresh disabled it raises like the no-refresh-token
case): full case analysis of `ensure_valid_token`. -/
theorem C6_ensure_valid_token_cases (jwtExp : String → Option ℚ) (s : AuthManager.State)
    (now : ℚ) (tr : AuthManager.RefreshTransport) :
    (s.token_info = none →
       AuthManager.ensure_valid_token jwtExp s now tr
         = (s, .error (mkErr .authentication "No authentication tokens available")))
  ∧ (∀ ti, s.token_info = some ti → AuthManager.is_token_valid s now = true →
       AuthManager.ensure_valid_token jwtExp s now tr = (s, .ok ti.access_token))
  ∧ (∀ ti s2 nti, s.token_info = some ti → AuthManager.is_token_valid s now = false →
       ti.refresh_token.isSome = true → s.config.auto_refresh = true →
       AuthManager.refresh_token jwtExp s now tr = (s2, .ok nti) →
       AuthManager.ensure_valid_token jwtExp s now tr = (s2, .ok nti.access_token))
  ∧ (∀ ti s2 e, s.token_info = some ti → AuthManager.is_token_valid s now = false →
       ti.refresh_token.isSome = true → s.config.auto_refresh = true →
       AuthManager.refresh_token jwtExp s now tr = (s2, .error e) →
       AuthManager.ensure_valid_token jwtExp s now tr = (s2, .error e))
  ∧ (∀ ti, s.token_info = some ti → AuthManager.is_token_valid s now = false →
       ¬ (ti.refresh_token.isSome = true ∧ s.config.auto_refresh = true) →
       AuthManager.ensure_valid_token jwtExp s now tr
         = (s, .error (mkErr .authentication "Token expired and cannot be refreshed"))) := by
  refine ⟨?_, ?_, ?_, ?_, ?_⟩
  · intro h
    simp [AuthManager.ensure_valid_token, h]
  · intro ti h hv
    simp [AuthManager.ensure_valid_token, h, hv]
  · intro ti s2 nti h hv hrt ha hr
    simp [AuthManager.ensure_valid_token, h, hv, hrt, ha, hr]
  · intro ti s2 e h hv hrt ha hr
    simp [AuthManager.ensure_valid_token, h, hv, hrt, ha, hr]
  · intro ti h hv hna
    simp [AuthManager.ensure_valid_token, h, hv, hna]

/-- Witness for C6: the expired credential of `sBearer` (auto-refresh on)
is refreshed through `refreshOkTr` and the new access token returned. -/
theorem C6_ensure_valid_token_witness :
    AuthManager.ensure_valid_token (fun _ => none) sBearer 100 refreshOkTr
      = (sAfter, .ok "n") := by
  have hb : ¬ ("bearer" : String) = "api_key" := by decide
  have hv : AuthManager.is_token_valid sBearer 100 = false := by
    simp [AuthManager.is_token_valid, sBearer, tiExpired, hb]
    norm_num
  have h := (C6_ensure_valid_token_cases (fun _ => none) sBearer 100 refreshOkTr).2.2.1
  exact h tiExpired sAfter nti6 rfl hv rfl rfl rfl

/-- Claim C7 counterexample: a refresh response with the 2xx status 201
and a well-formed body is treated as a failure — the code tests
`status != 200`, not "not 2xx" — so `refresh_token` raises
`AuthenticationError` and keeps the old credential. -/
theorem C7_counterexample_status_201 :
    (AuthManager.refresh_token (fun _ => none) sBearer 0
        (.response 201 { access_token := some "n" })).2
      = .error (mkErr .authentication "Token refresh failed")
  ∧ (AuthManager.refresh_token (fun _ => none) sBearer 0
        (.response 201 { access_token := some "n" })).1 = sBearer := by
  have hti : sBearer.token_info = some tiExpired := rfl
  have hrt : tiExpired.refresh_token = some "r" := rfl
  constructor <;>
    simp [AuthManager.refresh_token, hti, hrt]

/-- Claim C7 (amended: `refresh_token` fails exactly when the transport
call fails, the response status is not exactly 200 — so other 2xx
statuses also fail — or the 200 body lacks `access_token`): every failure
raises an AUTH_ERROR-coded error and leaves the state (in particular the
stored credential) unchanged; on success the stored credential is
replaced wholesale by the returned one. -/
theorem C7_refresh_failure_frame (jwtExp : String → Option ℚ) (s : AuthManager.State)
    (now : ℚ) (tr : AuthManager.RefreshTransport) (ti : TokenInfo) (rt : String)
    (h1 : s.token_info = some ti) (h2 : ti.refresh_token = some rt) :
    ((∃ e, (AuthManager.refresh_token jwtExp s now tr).2 = .error e) ↔
       (match tr with
        | .requestError _ => True
        | .response st body => st ≠ 200 ∨ body.access_token = none))
  ∧ (∀ e, (AuthManager.refresh_token jwtExp s now tr).2 = .error e →
        (AuthManager.refresh_token jwtExp s now tr).1 = s ∧ e.code = "AUTH_ERROR")
  ∧ (∀ nti, (AuthManager.refresh_token jwtExp s now tr).2 = .ok nti →
        (AuthManager.refresh_token jwtExp s now tr).1.token_info = some nti) := by
  cases tr with
  | requestError m =>
    have heq : AuthManager.refresh_token jwtExp s now (.requestError m)
        = (s, .error (mkErr .authentication ("Network error during token refresh: " ++ m))) := by
      simp [AuthManager.refresh_token, h1, h2]
    rw [heq]
    refine ⟨?_, ?_, ?_⟩
    · simp
    · intro e he
      simp at he
      subst he
      exact ⟨rfl, rfl⟩
    · intro nti hn
      simp at hn
  | response st body =>
    by_cases hst : st = 200
    · subst hst
      cases hbt : body.access_token with
      | none =>
        have heq : AuthManager.refresh_token jwtExp s now (.response 200 body)
            = (s, .error (mkErr .authentication "Token refresh failed")) := by
          simp [AuthManager.refresh_token, h1, h2, hbt]
        rw [heq]
        refine ⟨?_, ?_, ?_⟩
        · simp [hbt]
        · intro e he
          simp at he
          subst he
          exact ⟨rfl, rfl⟩
        · intro nti hn
          simp at hn
      | some tok =>
        have heq : AuthManager.refresh_token jwtExp s now (.response 200 body)
            = (AuthManager.set_tokens s
                { access_token := tok
                  refresh_token := body.refresh_token.orElse fun _ => some rt
                  token_type := "bearer"
                  expires_at :=
                    match body.expires_in with
                    | some d => some (now + d)
                    | none =>
                      match body.expires_at with
                      | some e => some e
                      | none => jwtExp tok } now,
               .ok
                { access_token := tok
                  refresh_token := body.refresh_token.orElse fun _ => some rt
                  token_type := "bearer"
                  expires_at :=
                    match body.expires_in with
                    | some d => some (now + d)
                    | none =>
                      match body.expires_at with
                      | some e => some e
                      | none => jwtExp tok }) := by
          simp [AuthManager.refresh_token, h1, h2, hbt]
        rw [heq]
        refine ⟨?_, ?_, ?_⟩
        · simp [hbt]
        · intro e he
          simp at he
        · intro nti hn
          simp at hn
          subst hn
          simp [AuthManager.set_tokens]
    · have heq : AuthManager.refresh_token jwtExp s now (.response st body)
          = (s, .error (mkErr .authentication "Token refresh failed")) := by
        simp [AuthManager.refresh_token, h1, h2, hst]
      rw [heq]
      refine ⟨?_, ?_, ?_⟩
      · simp [hst]
      · intro e he
        simp at he
        subst he
        exact ⟨rfl, rfl⟩
      · intro nti hn
        simp at hn

/-- Witness for C7: a transport failure during refresh leaves the stored
credential of `sBearer` untouched and yields an AUTH_ERROR-coded error. -/
theorem C7_refresh_failure_frame_witness :
    (AuthManager.refresh_token (fun _ => none) sBearer 0 (.requestError "x")).1 = sBearer
  ∧ (mkErr .authentication "Network error during token refresh: x").code = "AUTH_ERROR" := by
  have h := (C7_refresh_failure_frame (fun _ => none) sBearer 0 (.requestError "x")
      tiExpired "r" rfl rfl).2.1
  exact h (mkErr .authentication "Network error during token refresh: x") rfl

/-- Claim C8 counterexample: for a credential whose expiry is exactly
five minutes away, the claim arms a timer firing after
max(0, expires_at − 5min − now) = 0 seconds; the code only creates the
task when the delay is strictly positive, so no timer is armed at all
(and no automatic refresh will ever fire for this credential). -/
theorem C8_counterexample_no_clamped_timer :
    (AuthManager.set_tokens sBearer ti300 0).refresh_timer = none
  ∧ max 0 (((300 : ℚ) - 300) - 0) = 0 := by
  have hrt : ti300.refresh_token = some "r" := rfl
  have hex : ti300.expires_at = some 300 := rfl
  constructor
  · simp [AuthManager.set_tokens, AuthManager.schedule_refresh, sBearer, hrt, hex]
  · norm_num

/-- Claim C8 (amended: after a `set` of a bearer credential with a
refresh token and an expiry, with auto-refresh on, the pending timer is
replaced — at most one pending, whatever was armed before — by one firing
after `expires_at − 5min − now` seconds when that is strictly positive,
and by no timer at all otherwise; in particular for `expires_in = 3600`
the timer fires after 3300 seconds). -/
theorem C8_set_tokens_schedules_refresh (s : AuthManager.State) (ti : TokenInfo)
    (now e : ℚ) (ha : s.config.auto_refresh = true)
    (hrt : ti.refresh_token.isSome = true) (he : ti.expires_at = some e) :
    (AuthManager.set_tokens s ti now).token_info = some ti
  ∧ (AuthManager.set_tokens s ti now).refresh_timer
      = (if 0 < e - 300 - now then some (e - 300 - now) else none)
  ∧ (∀ t0, (AuthManager.set_tokens { s with refresh_timer := t0 } ti now).refresh_timer
        = (AuthManager.set_tokens s ti now).refresh_timer)
  ∧ (e = now + 3600 → (AuthManager.set_tokens s ti now).refresh_timer = some 3300) := by
  have hsch : AuthManager.schedule_refresh ti now
      = (if 0 < e - 300 - now then some (e - 300 - now) else none) := by
    simp [AuthManager.schedule_refresh, he]
  have htimer : (AuthManager.set_tokens s ti now).refresh_timer
      = (if 0 < e - 300 - now then some (e - 300 - now) else none) := by
    simp [AuthManager.set_tokens, ha, hrt, he, hsch]
  refine ⟨by simp [AuthManager.set_tokens], htimer, ?_, ?_⟩
  · intro t0
    simp [AuthManager.set_tokens]
  · intro hee
    rw [htimer, hee]
    rw [show (now + 3600 : ℚ) - 300 - now = 3300 from by ring]
    norm_num

/-- Witness for C8: a bearer credential issued with `expires_in = 3600`
at t0 = 0 arms a refresh 3300 seconds later (5 minutes before expiry). -/
theorem C8_set_tokens_schedules_refresh_witness :
    (AuthManager.set_tokens sBearer ti3600 0).refresh_timer = some 3300 := by
  have h := (C8_set_tokens_schedules_refresh sBearer ti3600 0 3600 rfl rfl rfl).2.2.2
  exact h (by norm_num)

/-- Claim C9 (confirmed): `acquire` refills the bucket to
min(capacity, tokens + elapsed·rate), stamps the refill time, then either
consumes one token with no wait, or waits (1 − tokens)/rate and leaves
the bucket empty; the invariant 0 ≤ tokens ≤ capacity is preserved. -/
theorem C9_token_bucket (s : RateLimiter.State) (now : ℚ)
    (h0 : 0 ≤ s.tokens) (h1 : s.tokens ≤ s.burst_size)
    (h2 : s.last_update ≤ now) (h3 : 0 < s.requests_per_second) :
    (RateLimiter.acquire s now).1.last_update = now
  ∧ (RateLimiter.acquire s now).1.burst_size = s.burst_size
  ∧ (1 ≤ min s.burst_size (s.tokens + (now - s.last_update) * s.requests_per_second) →
       (RateLimiter.acquire s now).1.tokens
         = min s.burst_size (s.tokens + (now - s.last_update) * s.requests_per_second) - 1
     ∧ (RateLimiter.acquire s now).2 = 0)
  ∧ (min s.burst_size (s.tokens + (now - s.last_update) * s.requests_per_second) < 1 →
       (RateLimiter.acquire s now).1.tokens = 0
     ∧ (RateLimiter.acquire s now).2
         = (1 - min s.burst_size (s.tokens + (now - s.last_update) * s.requests_per_second))
             / s.requests_per_second)
  ∧ 0 ≤ (RateLimiter.acquire s now).1.tokens
  ∧ (RateLimiter.acquire s now).1.tokens ≤ s.burst_size := by
  have hacq : RateLimiter.acquire s now
      = (if 1 ≤ min s.burst_size (s.tokens + (now - s.last_update) * s.requests_per_second)
         then
           ({ s with
                tokens := min s.burst_size
                    (s.tokens + (now - s.last_update) * s.requests_per_second) - 1
                last_update := now }, 0)
         else
           ({ s with tokens := 0, last_update := now },
            (1 - min s.burst_size (s.tokens + (now - s.last_update) * s.requests_per_second))
              / s.requests_per_second)) := rfl
  by_cases hge : 1 ≤ min s.burst_size (s.tokens + (now - s.last_update) * s.requests_per_second)
  · rw [hacq, if_pos hge]
    refine ⟨rfl, rfl, fun _ => ⟨rfl, rfl⟩, fun hlt => absurd hge (not_le.mpr hlt), ?_, ?_⟩
    · show (0 : ℚ) ≤ min s.burst_size
        (s.tokens + (now - s.last_update) * s.requests_per_second) - 1
      linarith
    · show min s.burst_size
        (s.tokens + (now - s.last_update) * s.requests_per_second) - 1 ≤ s.burst_size
      have hmin : min s.burst_size
          (s.tokens + (now - s.last_update) * s.requests_per_second) ≤ s.burst_size :=
        min_le_left _ _
      linarith
  · rw [hacq, if_neg hge]
    refine ⟨rfl, rfl, fun hge2 => absurd hge2 hge, fun _ => ⟨rfl, rfl⟩, ?_, ?_⟩
    · show (0 : ℚ) ≤ 0
      exact le_refl 0
    · show (0 : ℚ) ≤ s.burst_size
      exact le_trans h0 h1

/-- Witness for C9: a full bucket (capacity 10, rate 1/2) acquired at
time 4 stays within the invariant. -/
theorem C9_token_bucket_witness :
    0 ≤ (RateLimiter.acquire (RateLimiter.init (1/2) 10) 4).1.tokens
  ∧ (RateLimiter.acquire (RateLimiter.init (1/2) 10) 4).1.tokens
      ≤ (RateLimiter.init (1/2) 10).burst_size := by
  have h := C9_token_bucket (RateLimiter.init (1/2) 10) 4
    (by norm_num [RateLimiter.init]) (by norm_num [RateLimiter.init])
    (by norm_num [RateLimiter.init]) (by norm_num [RateLimiter.init])
  exact ⟨h.2.2.2.2.1, h.2.2.2.2.2⟩

/-- Claim C10 (confirmed): when a successful refresh response omits the
`refresh_token` field, the new credential stored by `refresh_token`
carries the previous credential's refresh token unchanged
(`data.get("refresh_token", self._token_info.refresh_token)`). -/
theorem C10_refresh_preserves_refresh_token (jwtExp : String → Option ℚ)
    (s : AuthManager.State) (now : ℚ) (ti : TokenInfo) (rt tok : String)
    (body : AuthManager.RefreshBody)
    (h1 : s.token_info = some ti) (h2 : ti.refresh_token = some rt)
    (h3 : body.access_token = some tok) (h4 : body.refresh_token = none) :
    ∃ nti, (AuthManager.refresh_token jwtExp s now (.response 200 body)).2 = .ok nti
      ∧ nti.refresh_token = some rt
      ∧ nti.access_token = tok
      ∧ (AuthManager.refresh_token jwtExp s now (.response 200 body)).1.token_info
          = some nti := by
  have heq : AuthManager.refresh_token jwtExp s now (.response 200 body)
      = (AuthManager.set_tokens s
          { access_token := tok
            refresh_token := body.refresh_token.orElse fun _ => some rt
            token_type := "bearer"
            expires_at :=
              match body.expires_in with
              | some d => some (now + d)
              | none =>
                match body.expires_at with
                | some e => some e
                | none => jwtExp tok } now,
         .ok
          { access_token := tok
            refresh_token := body.refresh_token.orElse fun _ => some rt
            token_type := "bearer"
            expires_at :=
              match body.expires_in with
              | some d => some (now + d)
              | none =>
                match body.expires_at with
                | some e => some e
                | none => jwtExp tok }) := by
    simp [AuthManager.refresh_token, h1, h2, h3]
  rw [heq]
  refine ⟨_, rfl, ?_, rfl, ?_⟩
  · simp [h4, Option.orElse]
  · simp [AuthManager.set_tokens]

/-- Witness for C10: refreshing `sBearer` through a 200 response whose
body has only `access_token` keeps the old refresh token "r". -/
theorem C10_refresh_preserves_refresh_token_witness :
    ∃ nti, (AuthManager.refresh_token (fun _ => none) sBearer 100 refreshOkTr).2 = .ok nti
      ∧ nti.refresh_token = some "r"
      ∧ nti.access_token = "n"
      ∧ (AuthManager.refresh_token (fun _ => none) sBearer 100 refreshOkTr).1.token_info
          = some nti := by
  exact C10_refresh_preserves_refresh_token (fun _ => none) sBearer 100 tiExpired "r" "n"
    { access_token := some "n" } rfl rfl rfl rfl
